import Mathlib

/-!
Shallow embedding of the Structure-Discovery and Adaptive Data-Sync Engine
of the EventConnect extension (`sheets-service.ts`, `message-handler.ts`),
with theorems settling the frozen claims about its specification.
-/

namespace EventConnect

/-! ### JavaScript string and number primitives used by the source -/

/-- Character-level lowercasing, modelling JS `String.prototype.toLowerCase`
on the ASCII range used by the keyword matching in the source. -/
def toLowerCase (s : String) : String :=
  String.mk (s.data.map Char.toLower)

/-- Tests whether `pat` occurs at the start of `l`. -/
def listPrefixOf : List Char → List Char → Bool
  | [], _ => true
  | _ :: _, [] => false
  | a :: as, b :: bs => a == b && listPrefixOf as bs

/-- Tests whether `pat` occurs contiguously in `l`, modelling JS
`String.prototype.includes`. -/
def listSubstr (pat : List Char) : List Char → Bool
  | [] => listPrefixOf pat []
  | l@(_ :: rest) => listPrefixOf pat l || listSubstr pat rest

/-- JS `s.includes(pat)`. -/
def strContains (s pat : String) : Bool :=
  listSubstr pat.data s.data

/-- Whitespace test used by JS `String.prototype.trim`. -/
def isWsChar (c : Char) : Bool :=
  c == ' ' || c == '\t' || c == '\n' || c == '\r'

/-- JS `String.prototype.trim`: drop leading and trailing whitespace. -/
def jsTrim (s : String) : String :=
  String.mk ((((s.data.dropWhile isWsChar).reverse.dropWhile isWsChar).reverse))

/-- Case-insensitive test for the substring "ignore", as written in the
source: `name.toLowerCase().includes("ignore")`. -/
def containsIgnore (s : String) : Bool :=
  strContains (toLowerCase s) "ignore"

/-- JS truthiness of an optional string (`undefined` and the empty string
are falsy). -/
def jsTruthyStr : Option String → Bool
  | none => false
  | some s => !s.isEmpty

/-- JS `a || b` for an optional string `a` with default `b`. -/
def jsOr (a : Option String) (b : String) : String :=
  match a with
  | some s => if s.isEmpty then b else s
  | none => b

/-- Value of a decimal digit run. -/
def digitsVal (ds : List Char) : Nat :=
  ds.foldl (fun a c => a * 10 + (c.toNat - 48)) 0

/-- JS `parseInt` restricted to base 10: optional sign then leading digits;
`none` models `NaN`. -/
def jsParseInt (s : String) : Option Int :=
  let t := s.data.dropWhile isWsChar
  match t with
  | '-' :: rest =>
      let ds := rest.takeWhile Char.isDigit
      if ds.isEmpty then none else some (-(digitsVal ds : Int))
  | '+' :: rest =>
      let ds := rest.takeWhile Char.isDigit
      if ds.isEmpty then none else some (digitsVal ds : Int)
  | l =>
      let ds := l.takeWhile Char.isDigit
      if ds.isEmpty then none else some (digitsVal ds : Int)

/-- Models the expression `parseInt(headerRow) || 1` of the source:
`NaN` and `0` both fall back to `1`. -/
def jsParseIntOr1 (s : String) : Int :=
  match jsParseInt s with
  | some n => if n == 0 then 1 else n
  | none => 1

/-- JS `parseFloat` on a character list already stripped to
digits, `.` and `-`: optional sign, integer digits, optional fraction;
`none` models `NaN`. -/
def parseFloatStripped (l : List Char) : Option Rat :=
  let signed : Rat × List Char :=
    match l with
    | '-' :: r => (-1, r)
    | r => (1, r)
  let intDs := signed.2.takeWhile Char.isDigit
  let rest := signed.2.drop intDs.length
  let fracDs :=
    match rest with
    | '.' :: r => r.takeWhile Char.isDigit
    | _ => []
  if intDs.isEmpty && fracDs.isEmpty then none
  else
    some (signed.1 * ((digitsVal intDs : Rat) +
      (digitsVal fracDs : Rat) / ((10 : Rat) ^ fracDs.length)))

/-- Models `GoogleSheetsService.parseNumber`: strip every character that
is not a digit, `.` or `-`, then `parseFloat`, with `NaN` mapped to `0`. -/
def parseNumber (s : String) : Rat :=
  let stripped := s.data.filter (fun c => c.isDigit || c == '.' || c == '-')
  (parseFloatStripped stripped).getD 0

/-- JS `Array.prototype.slice(n)` for a possibly negative `n`. -/
def jsSlice {α : Type} (l : List α) (n : Int) : List α :=
  if n ≥ 0 then l.drop n.toNat
  else l.drop (l.length - (-n).toNat)

/-! ### Remote tabular client: `readRange` retry loop, `updateRange`,
`appendToSheet` (sheets-service.ts) -/

/-- What the remote API does on one underlying attempt. -/
inductive AttemptOutcome
  | success (v : List (List String))
  | rateLimited
  | httpError (code : Nat)
  | netFailure (msg : String)
deriving Repr, DecidableEq

/-- The error a `readRange` call surfaces. -/
inductive ReadErr
  | apiError (code : Nat)
  | transport (msg : String)
  | undefinedError
deriving Repr, DecidableEq

/-- Observable result of one `readRange` call: outcome, number of
underlying attempts, and the sleep delays performed (in ms, in order). -/
structure ReadCallResult where
  outcome : Except ReadErr (List (List String))
  attempts : Nat
  delays : List Nat
deriving Repr

def MAX_RETRIES : Nat := 3

def RETRY_DELAY : Nat := 1000

/-- The body of the `for (let attempt = 1; attempt <= MAX_RETRIES;
attempt++)` loop of `GoogleSheetsService.readRange`, iterated over the
remaining attempt numbers: a 429 sleeps `RETRY_DELAY * attempt` and
continues; any thrown error (non-ok HTTP status or network failure) is
caught, recorded in `lastError`, and retried after the same delay when
`attempt < MAX_RETRIES`; on exhaustion `lastError` is thrown (JS
`undefined` when every attempt was a 429). -/
def readRangeGo (resps : Nat → AttemptOutcome) :
    List Nat → Option ReadErr → List Nat → ReadCallResult
  | [], lastError, delays =>
      { outcome := Except.error (lastError.getD ReadErr.undefinedError)
        attempts := MAX_RETRIES
        delays := delays.reverse }
  | attempt :: rest, lastError, delays =>
      match resps attempt with
      | AttemptOutcome.success v =>
          { outcome := Except.ok v, attempts := attempt, delays := delays.reverse }
      | AttemptOutcome.rateLimited =>
          readRangeGo resps rest lastError (RETRY_DELAY * attempt :: delays)
      | AttemptOutcome.httpError c =>
          readRangeGo resps rest (some (ReadErr.apiError c))
            (if attempt < MAX_RETRIES then RETRY_DELAY * attempt :: delays else delays)
      | AttemptOutcome.netFailure m =>
          readRangeGo resps rest (some (ReadErr.transport m))
            (if attempt < MAX_RETRIES then RETRY_DELAY * attempt :: delays else delays)

/-- Model of `GoogleSheetsService.readRange` as a function of the sequence
of responses the remote API gives on the n-th underlying attempt; the loop
runs over the attempt numbers `1, ..., MAX_RETRIES`. -/
def readRange (resps : Nat → AttemptOutcome) : ReadCallResult :=
  readRangeGo resps [1, 2, 3] none []

/-- The error a write or append call surfaces. -/
inductive WriteErr
  | httpFailure (code : Nat)
  | transport (msg : String)
deriving Repr, DecidableEq

/-- Model of `GoogleSheetsService.updateRange`: a single fetch with no
retry loop; any non-ok status (including 429) throws immediately. Returns
the result and the number of underlying attempts. -/
def updateRange (resp : AttemptOutcome) : Except WriteErr Unit × Nat :=
  match resp with
  | AttemptOutcome.success _ => (Except.ok (), 1)
  | AttemptOutcome.rateLimited => (Except.error (WriteErr.httpFailure 429), 1)
  | AttemptOutcome.httpError c => (Except.error (WriteErr.httpFailure c), 1)
  | AttemptOutcome.netFailure m => (Except.error (WriteErr.transport m), 1)

/-- Model of `GoogleSheetsService.appendToSheet`: the same single-attempt
shape as `updateRange`. -/
def appendToSheet (resp : AttemptOutcome) : Except WriteErr Unit × Nat :=
  match resp with
  | AttemptOutcome.success _ => (Except.ok (), 1)
  | AttemptOutcome.rateLimited => (Except.error (WriteErr.httpFailure 429), 1)
  | AttemptOutcome.httpError c => (Except.error (WriteErr.httpFailure c), 1)
  | AttemptOutcome.netFailure m => (Except.error (WriteErr.transport m), 1)

/-! ### Structure model and README table parsing
(`parseReadmeStructure`, `validateSheetStructure`) -/

/-- One column of a tab schema. -/
structure SheetColumn where
  name : String
  description : String
deriving Repr, DecidableEq

/-- Schema of one tab: header-row index and ordered columns. -/
structure SheetTab where
  headerRow : Int
  columns : List SheetColumn
deriving Repr, DecidableEq

/-- Discovered structure of one spreadsheet. `tabs` is an insertion-ordered
association list modelling the JS `Record<string, SheetTab>`. -/
structure SheetStructure where
  tabs : List (String × SheetTab)
  sheetTitle : Option String := none
deriving Repr, DecidableEq

/-- Header-row test of `parseReadmeStructure`: the first four cells,
lowercased and trimmed, must each-token-wise contain "tab", "header",
"column" and "column" (from the `expectedHeaders.every` test on the first
word of each expected header). -/
def isHeaderRowCells (row : List String) : Bool :=
  row.length ≥ 4 &&
    (let norm := (row.take 4).map (fun c => jsTrim (toLowerCase c))
     (["tab", "header", "column", "column"] : List String).all
       (fun h => norm.any (fun cell => strContains cell h)))

/-- Insert a tab entry if the name is not present yet (insertion order kept,
new tab starts with an empty column list). -/
def tabsInsert (tabs : List (String × SheetTab)) (name : String) (hr : Int) :
    List (String × SheetTab) :=
  if tabs.any (fun p => p.1 == name) then tabs
  else tabs ++ [(name, { headerRow := hr, columns := [] })]

/-- Append a column to the named tab. -/
def tabsAddColumn (tabs : List (String × SheetTab)) (name : String)
    (col : SheetColumn) : List (String × SheetTab) :=
  tabs.map (fun p =>
    if p.1 == name then (p.1, { p.2 with columns := p.2.columns ++ [col] }) else p)

/-- Processing of one data row below the header row in
`parseReadmeStructure`: skip short rows, rows with an empty tab or column
name and rows whose tab name contains "ignore"; create the tab on first
sight; append the column unless its name contains "ignore". -/
def processReadmeRow (tabs : List (String × SheetTab)) (row : List String) :
    List (String × SheetTab) :=
  if row.length < 4 then tabs
  else
    let tabName := row.getD 0 ""
    let headerRow := row.getD 1 ""
    let columnName := row.getD 2 ""
    let columnDescription := row.getD 3 ""
    if tabName.isEmpty || columnName.isEmpty then tabs
    else if containsIgnore tabName then tabs
    else
      let cleanTabName := jsTrim tabName
      let cleanColumnName := jsTrim columnName
      let cleanDescription := jsTrim columnDescription
      let headerRowNum := jsParseIntOr1 headerRow
      let tabs2 := tabsInsert tabs cleanTabName headerRowNum
      if !cleanColumnName.isEmpty && !containsIgnore cleanColumnName then
        tabsAddColumn tabs2 cleanTabName
          { name := cleanColumnName, description := cleanDescription }
      else tabs2

/-- Model of `GoogleSheetsService.parseReadmeStructure`: find the header
row, then fold the rows strictly after it; `none` models the `null`
returned when no header row is found. -/
def parseReadmeStructure (readmeValues : List (List String)) :
    Option SheetStructure :=
  match readmeValues.findIdx? isHeaderRowCells with
  | none => none
  | some i =>
      some { tabs := (readmeValues.drop (i + 1)).foldl processReadmeRow [] }

/-- The structural acceptance test of `validateSheetStructure` after
parsing: `!structure || Object.keys(structure.tabs).length === 0` is
rejected, everything else is reported valid. -/
def readmeStructureAccepted (readmeValues : List (List String)) : Bool :=
  match parseReadmeStructure readmeValues with
  | none => false
  | some s => !s.tabs.isEmpty

/-- Outcome of `validateSheetStructure` as consumed by its callers. -/
structure SheetValidation where
  isValid : Bool
  struct : Option SheetStructure
  error : Option String
deriving Repr, DecidableEq

/-! ### Structure cache freshness (`getSheetStructure`) -/

def twentyFourHoursMs : Int := 24 * 60 * 60 * 1000

/-- Model of `GoogleSheetsService.getSheetStructure`: absent entries give
`null`; a stored entry is returned unless its timestamp is strictly older
than `Date.now() - 24h`. -/
def getSheetStructure (stored : Option SheetStructure) (timestamp : Int)
    (now : Int) : Option SheetStructure :=
  match stored with
  | none => none
  | some s => if timestamp < now - twentyFourHoursMs then none else some s

/-! ### Adaptive data mapper (`parseFlexibleEventData`) -/

inductive TaskPriority
  | high
  | medium
  | low
deriving Repr, DecidableEq

structure TaskItem where
  name : String
  dueDate : String
  assignedTo : String
  priority : TaskPriority
deriving Repr, DecidableEq

structure VendorContact where
  name : String
  category : String
  contact : String
  email : String
  phone : String
  status : String
deriving Repr, DecidableEq

inductive TimelineStatus
  | pending
  | inProgress
  | completed
deriving Repr, DecidableEq

structure TimelineItem where
  task : String
  dueDate : String
  status : TimelineStatus
  assignedTo : String
deriving Repr, DecidableEq

structure BudgetView where
  total : Rat
  spent : Rat
  remaining : Rat
deriving Repr, DecidableEq

structure TasksView where
  completed : Nat
  total : Nat
  upcoming : List TaskItem
deriving Repr, DecidableEq

structure EventData where
  eventName : String
  eventDate : String
  budget : BudgetView
  tasks : TasksView
  vendors : List VendorContact
  timeline : List TimelineItem
deriving Repr, DecidableEq

/-- Model of `GoogleSheetsService.parsePriority`. -/
def parsePriority (value : String) : TaskPriority :=
  let lower := toLowerCase value
  if strContains lower "high" || strContains lower "urgent" then TaskPriority.high
  else if strContains lower "low" then TaskPriority.low
  else TaskPriority.medium

/-- Mutable accumulator of the tab loop in `parseFlexibleEventData`. -/
structure MapperState where
  eventName : String
  eventDate : String
  budgetTotal : Rat
  budgetSpent : Rat
  tasks : List TaskItem
  vendors : List VendorContact
deriving Repr, DecidableEq

/-- One overview row: `if (row[0] && row[1])`, then label keyword matching
sets the event name, date or budget total. -/
def overviewRow (st : MapperState) (row : List String) : MapperState :=
  if !(row.getD 0 "").isEmpty && !(row.getD 1 "").isEmpty then
    let key := toLowerCase (row.getD 0 "")
    if strContains key "event" && strContains key "name" then
      { st with eventName := jsOr (some (row.getD 1 "")) st.eventName }
    else if strContains key "date" then
      { st with eventDate := jsOr (some (row.getD 1 "")) st.eventDate }
    else if strContains key "budget" && strContains key "total" then
      { st with budgetTotal := parseNumber (row.getD 1 "") }
    else st
  else st

/-- One budget data row: the first cell after column 0 that parses to a
positive number is added to `budgetSpent` (then `break`). -/
def budgetRow (st : MapperState) (row : List String) : MapperState :=
  if !(row.getD 0 "").isEmpty then
    match (row.drop 1).find? (fun c => decide ((0 : Rat) < parseNumber c)) with
    | some c => { st with budgetSpent := st.budgetSpent + parseNumber c }
    | none => st
  else st

/-- One task data row. -/
def taskRow (st : MapperState) (row : List String) : MapperState :=
  if !(row.getD 0 "").isEmpty then
    { st with tasks := st.tasks ++ [{
        name := row.getD 0 ""
        dueDate := row.getD 1 ""
        assignedTo := row.getD 2 ""
        priority := parsePriority (row.getD 3 "") }] }
  else st

/-- One vendor data row; `row[5] || "pending"` defaults the status. -/
def vendorRow (st : MapperState) (row : List String) : MapperState :=
  if !(row.getD 0 "").isEmpty then
    { st with vendors := st.vendors ++ [{
        name := row.getD 0 ""
        category := row.getD 1 ""
        contact := row.getD 2 ""
        email := row.getD 3 ""
        phone := row.getD 4 ""
        status := jsOr (some (row.getD 5 "")) "pending" }] }
  else st

/-- Processing of one structure tab against its raw grid: empty grids are
skipped; each heuristic tab-name category contributes independently. -/
def processTab (st : MapperState) (tabName : String) (tabInfo : SheetTab)
    (tabData : List (List String)) : MapperState :=
  if tabData.isEmpty then st
  else
    let dataRows := jsSlice tabData tabInfo.headerRow
    let lowerTabName := toLowerCase tabName
    let st1 :=
      if strContains lowerTabName "overview" || strContains lowerTabName "info" then
        tabData.foldl overviewRow st
      else st
    let st2 :=
      if strContains lowerTabName "budget" || strContains lowerTabName "expense" then
        dataRows.foldl budgetRow st1
      else st1
    let st3 :=
      if strContains lowerTabName "task" || strContains lowerTabName "todo" ||
          strContains lowerTabName "timeline" then
        dataRows.foldl taskRow st2
      else st2
    let st4 :=
      if strContains lowerTabName "vendor" || strContains lowerTabName "supplier" ||
          strContains lowerTabName "contact" then
        dataRows.foldl vendorRow st3
      else st3
    st4

/-- The accumulator after the whole tab loop of `parseFlexibleEventData`.
`sheetData` models the `Record<string, any[][]>` of raw per-tab grids. -/
def collectState (sheetData : String → List (List String))
    (struct : SheetStructure) : MapperState :=
  struct.tabs.foldl
    (fun st e => processTab st e.1 e.2 (sheetData e.1))
    { eventName := jsOr struct.sheetTitle "Untitled Event"
      eventDate := ""
      budgetTotal := 0
      budgetSpent := 0
      tasks := []
      vendors := [] }

/-- Completion test used for `tasks.completed`: name or assignee text
contains "complete". -/
def taskIsComplete (t : TaskItem) : Bool :=
  strContains (toLowerCase t.name) "complete" ||
    strContains (toLowerCase t.assignedTo) "complete"

/-- Name-only completion test used for `tasks.upcoming`. -/
def taskNameComplete (t : TaskItem) : Bool :=
  strContains (toLowerCase t.name) "complete"

/-- Model of `GoogleSheetsService.parseFlexibleEventData`. -/
def parseFlexibleEventData (sheetData : String → List (List String))
    (struct : SheetStructure) : EventData :=
  let st := collectState sheetData struct
  let completedTasks := (st.tasks.filter taskIsComplete).length
  let upcomingTasks := (st.tasks.filter (fun t => !taskNameComplete t)).take 5
  { eventName := st.eventName
    eventDate := st.eventDate
    budget := { total := st.budgetTotal, spent := st.budgetSpent,
                remaining := st.budgetTotal - st.budgetSpent }
    tasks := { completed := completedTasks, total := st.tasks.length,
               upcoming := upcomingTasks }
    vendors := st.vendors
    timeline := [] }

/-! ### Sync facade: `readEventSheet` and `updateEventData` -/

/-- Model of `GoogleSheetsService.readEventSheet` as a function of the
validation outcome, the stored (freshness-checked) structure and the
per-tab reads.
A failing per-tab read (`none`) is caught and replaced by an empty grid;
errors are rethrown wrapped in `Failed to read event data: `. -/
def readEventSheet (validation : SheetValidation)
    (cached : Option SheetStructure)
    (tabReads : String → Option (List (List String))) :
    Except String EventData :=
  if validation.isValid = false then
    Except.error ("Failed to read event data: " ++
      jsOr validation.error "Sheet does not have the expected EventConnect structure")
  else
    match cached with
    | none =>
        Except.error
          "Failed to read event data: Sheet structure not found. Please reconnect the sheet."
    | some s =>
        Except.ok (parseFlexibleEventData (fun t => (tabReads t).getD []) s)

/-- The four fixed write sections of `updateEventData`. -/
inductive UpdateSection
  | overview
  | budget
  | vendors
  | timeline
deriving Repr, DecidableEq

/-- The populated fields of the `Partial<EventData>` argument of
`updateEventData` that decide which writes are issued. -/
structure EventUpdates where
  eventName : Option String
  eventDate : Option String
  budget : Bool
  vendors : Bool
  timeline : Bool
deriving Repr, DecidableEq

/-- The section writes `updateEventData` pushes onto `updatePromises`,
in source order: overview when `updates.eventName || updates.eventDate`
is truthy, then budget, vendors, timeline when present. -/
def sectionsOf (u : EventUpdates) : List UpdateSection :=
  (if jsTruthyStr u.eventName || jsTruthyStr u.eventDate then [UpdateSection.overview] else []) ++
    (if u.budget then [UpdateSection.budget] else []) ++
    (if u.vendors then [UpdateSection.vendors] else []) ++
    (if u.timeline then [UpdateSection.timeline] else [])

/-- Model of `GoogleSheetsService.updateEventData`: one `updateRange` per
populated section, awaited with `Promise.all`, which rejects with the
first failing section write; `writeOk s` tells whether the write for
section `s` succeeds. -/
def updateEventData (u : EventUpdates) (writeOk : UpdateSection → Bool) :
    Except UpdateSection Unit :=
  match (sectionsOf u).find? (fun s => !writeOk s) with
  | some s => Except.error s
  | none => Except.ok ()

/-! ### Message handler (`message-handler.ts`): routing, `VALIDATE_SHEET`,
rate limiting -/

inductive MsgRoute
  | auth
  | event
  | sheets
  | action
  | unknown
deriving Repr, DecidableEq

def isAuthMessage (t : String) : Bool :=
  (["AUTH_LOGIN", "AUTH_LOGOUT", "AUTH_STATUS", "AUTH_REFRESH"] : List String).contains t

def isEventMessage (t : String) : Bool :=
  (["GET_CURRENT_EVENT", "SET_CURRENT_EVENT", "VALIDATE_SHEET", "GET_SHEET_INFO"] : List String).contains t

def isSheetsMessage (t : String) : Bool :=
  (["READ_EVENT_DATA", "UPDATE_EVENT_DATA", "APPEND_LOG", "SHEETS_"] : List String).contains t

def isActionMessage (t : String) : Bool :=
  (["EXECUTE_ACTION", "GET_ACTION_SUGGESTIONS"] : List String).contains t

/-- The `switch (true)` routing of `MessageHandler.handleMessage`, in
source order (auth, event, sheets, action). -/
def routeOf (t : String) : MsgRoute :=
  if isAuthMessage t then MsgRoute.auth
  else if isEventMessage t then MsgRoute.event
  else if isSheetsMessage t then MsgRoute.sheets
  else if isActionMessage t then MsgRoute.action
  else MsgRoute.unknown

/-- Response shape of the `VALIDATE_SHEET` case in
`MessageHandler.handleEventMessage`. -/
structure ValidateSheetResponse where
  success : Bool
  message : Option String
  eventName : Option String
  error : Option String
deriving Repr, DecidableEq

/-- A JS object value is always truthy; the source tests
`if (isValid)` where `isValid` is the whole result object returned by
`validateSheetStructure`, never `null` or `undefined`. -/
def jsTruthyObject : Bool := true

/-- The `VALIDATE_SHEET` case of `MessageHandler.handleEventMessage`.
`storedStructure` is the Structure Cache entry for the sheet; this branch
performs no cache write in either arm. -/
def handleValidateSheetEvent (v : SheetValidation) (sheetName : Option String)
    (storedStructure : Option SheetStructure) :
    ValidateSheetResponse × Option SheetStructure :=
  if jsTruthyObject then
    ({ success := true
       message := some "Sheet validated successfully"
       eventName := some (jsOr sheetName "Event Dashboard")
       error := none }, storedStructure)
  else
    ({ success := false
       message := none
       eventName := none
       error := some "Cannot access sheet. Please check sharing permissions and Sheet ID." },
     storedStructure)

/-- Model of `MessageHandler.getUserFriendlyError` (production branch), a
cascade of case-insensitive substring tests on the thrown message. -/
def getUserFriendlyError (msg : String) : String :=
  let m := toLowerCase msg
  if strContains m "authentication" || strContains m "token" then
    "Please sign in to your Google account to continue."
  else if strContains m "permission" || strContains m "access denied" then
    "You don\x27t have permission to access this resource. Please check your Google account permissions."
  else if strContains m "network" || strContains m "fetch" then
    "Network error. Please check your internet connection and try again."
  else if strContains m "rate limit" then
    "Too many requests. Please wait a moment before trying again."
  else if strContains m "sheet" && strContains m "not found" then
    "The requested Google Sheet could not be found. Please check the sheet ID and your permissions."
  else if strContains m "quota" then
    "Google API quota exceeded. Please try again later."
  else
    "Something went wrong. Please try again or contact support if the problem persists."

/-- Per-sender counter record of `MessageHandler.checkRateLimit`. -/
structure SenderData where
  count : Nat
  resetTime : Int
deriving Repr, DecidableEq

def RATE_LIMIT_WINDOW : Int := 60 * 1000

def RATE_LIMIT_MAX_REQUESTS : Nat := 60

/-- Lookup in the `requestCounts` map, modelled as an association list. -/
def lookupRL (store : List (String × SenderData)) (sid : String) :
    Option SenderData :=
  (store.find? (fun p => p.1 == sid)).map Prod.snd

/-- Models `requestCounts.set(senderId, senderData)`: replace the entry
in place when the key is present, append it otherwise (JS `Map.set`). -/
def insertRL : List (String × SenderData) → String → SenderData →
    List (String × SenderData)
  | [], sid, d => [(sid, d)]
  | p :: rest, sid, d =>
      if p.1 == sid then (sid, d) :: rest else p :: insertRL rest sid d

/-- Model of `MessageHandler.checkRateLimit`: reset the window of the
sender when absent or elapsed (`now > resetTime`), increment the count
(also for rejected requests), store it back, and reject when the count
exceeds the maximum. -/
def checkRateLimit (store : List (String × SenderData)) (sid : String)
    (now : Int) : Bool × List (String × SenderData) :=
  let base : SenderData :=
    match lookupRL store sid with
    | some d =>
        if now > d.resetTime then
          { count := 0, resetTime := now + RATE_LIMIT_WINDOW }
        else d
    | none => { count := 0, resetTime := now + RATE_LIMIT_WINDOW }
  let senderData : SenderData := { base with count := base.count + 1 }
  let store2 := insertRL store sid senderData
  (!decide (senderData.count > RATE_LIMIT_MAX_REQUESTS), store2)

/-- What the caller of the handler observes: the response of the routed
operation, or an error envelope. -/
inductive HandlerResponse
  | handled
  | errorResp (msg : String)
deriving Repr, DecidableEq

structure HandleOutcome where
  response : HandlerResponse
  executed : Bool
  store : List (String × SenderData)
deriving Repr, DecidableEq

/-- The rate-limit gate at the top of `MessageHandler.handleMessage`:
a rejected request throws `Rate limit exceeded. Please slow down your
requests.`, which the catch block maps through `getUserFriendlyError`
and returns as an error envelope without routing the operation. -/
def handleMessageGate (store : List (String × SenderData)) (sid : String)
    (now : Int) : HandleOutcome :=
  let r := checkRateLimit store sid now
  if r.1 then
    { response := HandlerResponse.handled, executed := true, store := r.2 }
  else
    { response := HandlerResponse.errorResp
        (getUserFriendlyError "Rate limit exceeded. Please slow down your requests.")
      executed := false
      store := r.2 }

/-! ### Invariants and concrete inputs used by the verification -/

/-- No tab key and no stored column name contains the (case-insensitive)
substring "ignore". -/
def TabsNoIgnore (tabs : List (String × SheetTab)) : Prop :=
  ∀ p ∈ tabs, containsIgnore p.1 = false ∧
    ∀ c ∈ p.2.columns, containsIgnore c.name = false

/-- Response sequence: a Forbidden (403) answer on the first attempt, then
success. -/
def resps403 : Nat → AttemptOutcome := fun n =>
  if n = 1 then AttemptOutcome.httpError 403 else AttemptOutcome.success [["x"]]

/-- Response sequence: two RateLimited (429) answers, then success. -/
def respsRL : Nat → AttemptOutcome := fun n =>
  if n ≤ 2 then AttemptOutcome.rateLimited else AttemptOutcome.success [["y"]]

/-- Response sequence: every attempt fails at the network layer. -/
def respsNet : Nat → AttemptOutcome := fun _ => AttemptOutcome.netFailure "boom"

/-- Description grid whose only data row names a tab but an
ignore-filtered column. -/
def g8 : List (List String) :=
  [["Tab", "Header Row", "Column", "Column Description"],
   ["Budget", "1", "IgnoreCol", "x"]]

/-- Description grid with two kept tabs, one ignore-filtered row and one
ignore-filtered column. -/
def g6 : List (List String) :=
  [["Tab", "Header Row", "Column", "Column Description"],
   ["Budget", "1", "Category", "c"],
   ["Budget", "1", "Amount", "a"],
   ["Ignore Me", "1", "X", "d"],
   ["Tasks", "2", "IGNORE this", "d"],
   ["Tasks", "2", "Task", ""]]

/-- The structure `parseReadmeStructure` discovers from `g6`. -/
def s6val : SheetStructure :=
  { tabs := [("Budget",
      { headerRow := 1,
        columns := [{ name := "Category", description := "c" },
                    { name := "Amount", description := "a" }] }),
     ("Tasks",
      { headerRow := 2,
        columns := [{ name := "Task", description := "" }] })] }

/-- A small concrete structure with one tab. -/
def s0 : SheetStructure :=
  { tabs := [("Budget", { headerRow := 1, columns := [] })] }

/-- A structure whose single tab is classified as a task tab. -/
def s9 : SheetStructure :=
  { tabs := [("Tasks",
      { headerRow := 1, columns := [{ name := "Task", description := "" }] })] }

/-- Raw grid for `s9`: one task whose assignee text contains "complete"
but whose name does not. -/
def d9 : String → List (List String) := fun t =>
  if t = "Tasks" then
    [["hdr"], ["Book venue", "2025-01-01", "completed by Ann", "high"]]
  else []

/-- A successful validation outcome. -/
def v4ok : SheetValidation :=
  { isValid := true, struct := some s0, error := none }

/-- A failing validation outcome with guidance text. -/
def v4fail : SheetValidation :=
  { isValid := false, struct := none,
    error := some "README tab is empty. Please add the structure definition table." }

/-- The validation outcome for a sheet with no README tab: invalid, with
the guidance message of the validator. -/
def failingValidation : SheetValidation :=
  { isValid := false, struct := none,
    error := some "README tab not found. Please create a README tab in your Google Sheets with the structure definition table (Tab, Header Row, Column, Column Description)." }

/-- Updates populating the budget and vendors sections only. -/
def u0 : EventUpdates :=
  { eventName := none, eventDate := none, budget := true, vendors := true,
    timeline := false }

/-- Section write outcomes where only the budget write fails. -/
def w0 : UpdateSection → Bool := fun s =>
  match s with
  | UpdateSection.budget => false
  | _ => true

/-- Updates populating every section. -/
def u1 : EventUpdates :=
  { eventName := some "Gala", eventDate := some "2025-06-01", budget := true,
    vendors := true, timeline := true }

/-- Section write outcomes where every write succeeds. -/
def wAll : UpdateSection → Bool := fun _ => true

/-- A rate-limit store with one sender already at the window maximum. -/
def store0 : List (String × SenderData) :=
  [("7", { count := 60, resetTime := 100 })]

/-! ### Theorems -/

/-- C1 (counterexample): a Forbidden (403) response on the first attempt
does not abort `readRange`; a second attempt is made and the call can
succeed. A RateLimited (429) response to `updateRange` is not retried:
the write makes exactly one attempt and surfaces the failure. -/
theorem readRange_counterexample :
    (readRange resps403).attempts = 2 ∧
    (readRange resps403).outcome = Except.ok [["x"]] ∧
    updateRange AttemptOutcome.rateLimited =
      (Except.error (WriteErr.httpFailure 429), 1) :=
  ⟨rfl, rfl, rfl⟩

/-- C1 (amended): `readRange` makes at most 3 attempts; two RateLimited
responses followed by a success give a successful call with exactly 3
attempts and linearly growing delays; three consecutive network failures
surface the last transport error after exactly 3 attempts with the same
delays; `updateRange` and `appendToSheet` always make exactly one
attempt. -/
theorem readRange_retry_discipline : ∀ resps : Nat → AttemptOutcome,
    (readRange resps).attempts ≤ 3 ∧
    (∀ v, resps 1 = AttemptOutcome.rateLimited →
      resps 2 = AttemptOutcome.rateLimited →
      resps 3 = AttemptOutcome.success v →
      readRange resps =
        { outcome := Except.ok v, attempts := 3, delays := [1000, 2000] }) ∧
    (∀ m1 m2 m3, resps 1 = AttemptOutcome.netFailure m1 →
      resps 2 = AttemptOutcome.netFailure m2 →
      resps 3 = AttemptOutcome.netFailure m3 →
      readRange resps =
        { outcome := Except.error (ReadErr.transport m3), attempts := 3,
          delays := [1000, 2000] }) ∧
    (∀ r, (updateRange r).2 = 1 ∧ (appendToSheet r).2 = 1) := by
  intro resps
  refine ⟨?_, ?_, ?_, ?_⟩
  · rcases h1 : resps 1 <;> rcases h2 : resps 2 <;> rcases h3 : resps 3 <;>
      simp [readRange, readRangeGo, h1, h2, h3, MAX_RETRIES, RETRY_DELAY]
  · intro v h1 h2 h3
    simp [readRange, readRangeGo, h1, h2, h3, MAX_RETRIES, RETRY_DELAY]
  · intro m1 m2 m3 h1 h2 h3
    simp [readRange, readRangeGo, h1, h2, h3, MAX_RETRIES, RETRY_DELAY]
  · intro r
    cases r <;> exact ⟨rfl, rfl⟩

/-- Witness for C1: the two-RateLimited-then-success scenario evaluated at
a concrete response sequence. -/
theorem readRange_retry_discipline_witness :
    readRange respsRL =
      { outcome := Except.ok [["y"]], attempts := 3, delays := [1000, 2000] } :=
  (readRange_retry_discipline respsRL).2.1 [["y"]] rfl rfl rfl

/-- C2 (counterexample): with the budget and vendors sections populated,
a failing budget write makes the whole `updateEventData` call fail even
though the vendors write succeeds. -/
theorem updateEventData_counterexample :
    updateEventData u0 w0 = Except.error UpdateSection.budget ∧
    UpdateSection.vendors ∈ sectionsOf u0 ∧
    w0 UpdateSection.vendors = true :=
  ⟨rfl, by decide, rfl⟩

/-- C3 (code bug): `VALIDATE_SHEET` is routed to the event handler, whose
truthiness test on the whole validation result object makes it report
success with no error text even for a failed validation, and the
Structure Cache entry is left untouched. -/
theorem validateSheet_reports_success_on_failure :
    routeOf "VALIDATE_SHEET" = MsgRoute.event ∧
    failingValidation.isValid = false ∧
    (handleValidateSheetEvent failingValidation (some "My Event") none).1.success = true ∧
    (handleValidateSheetEvent failingValidation (some "My Event") none).1.error = none ∧
    (handleValidateSheetEvent failingValidation (some "My Event") none).1.message =
      some "Sheet validated successfully" ∧
    (handleValidateSheetEvent failingValidation (some "My Event") none).2 = none :=
  ⟨rfl, rfl, rfl, rfl, rfl, rfl⟩

/-- C4 (counterexample): with a successful validation but no fresh cached
structure, `readEventSheet` does not proceed to read tab data; it fails
with a structure-not-found error that is not a validation failure. -/
theorem readEventSheet_counterexample :
    readEventSheet v4ok none (fun _ => some []) =
      Except.error "Failed to read event data: Sheet structure not found. Please reconnect the sheet." ∧
    v4ok.isValid = true :=
  ⟨rfl, rfl⟩

/-- C4 (amended): `readEventSheet` always validates first and surfaces a
validation failure; with a valid sheet it requires an existing fresh
cached structure (it performs no cache write itself), failing when the
cache is empty, and only with both a valid sheet and a cached structure
does it map the tab data into the aggregate. -/
theorem readEventSheet_branches : ∀ (v : SheetValidation)
    (cached : Option SheetStructure)
    (reads : String → Option (List (List String))),
    (v.isValid = false →
      readEventSheet v cached reads = Except.error
        ("Failed to read event data: " ++
          jsOr v.error "Sheet does not have the expected EventConnect structure")) ∧
    (v.isValid = true → cached = none →
      readEventSheet v cached reads = Except.error
        "Failed to read event data: Sheet structure not found. Please reconnect the sheet.") ∧
    (∀ s, v.isValid = true → cached = some s →
      readEventSheet v cached reads =
        Except.ok (parseFlexibleEventData (fun t => (reads t).getD []) s)) := by
  intro v cached reads
  refine ⟨?_, ?_, ?_⟩
  · intro h
    simp [readEventSheet, h]
  · intro h hc
    subst hc
    simp [readEventSheet, h]
  · intro s h hc
    subst hc
    simp [readEventSheet, h]

/-- Witness for C4: the failing-validation branch evaluated at a concrete
validation outcome. -/
theorem readEventSheet_branches_witness :
    readEventSheet v4fail none (fun _ => none) =
      Except.error ("Failed to read event data: " ++
        jsOr v4fail.error "Sheet does not have the expected EventConnect structure") :=
  (readEventSheet_branches v4fail none (fun _ => none)).1 rfl

/-- C5 (confirmed): every aggregate produced by
`parseFlexibleEventData` has `budget.remaining` equal to
`budget.total - budget.spent`, recomputed from the other two fields for
every input. -/
theorem budget_remaining_recomputed : ∀ (d : String → List (List String))
    (s : SheetStructure),
    (parseFlexibleEventData d s).budget.remaining =
      (parseFlexibleEventData d s).budget.total -
        (parseFlexibleEventData d s).budget.spent :=
  fun _ _ => rfl

/-- C7 (counterexample): a schema cached exactly 24 hours ago is still
returned by `getSheetStructure`, while the claim requires it to be
treated as absent at `T2 - T = 24h`. -/
theorem getSheetStructure_counterexample :
    getSheetStructure (some s0) 0 twentyFourHoursMs = some s0 := rfl

/-- C7 (amended): a stored schema is returned exactly when its age is at
most 24 hours and treated as absent exactly when it is strictly older;
absent entries always give `none`. -/
theorem cache_freshness_boundary : ∀ (s : SheetStructure) (ts now : Int),
    (getSheetStructure (some s) ts now = some s ↔
      now - ts ≤ twentyFourHoursMs) ∧
    (getSheetStructure (some s) ts now = none ↔
      twentyFourHoursMs < now - ts) ∧
    getSheetStructure none ts now = none := by
  intro s ts now
  by_cases h : ts < now - twentyFourHoursMs
  · simp [getSheetStructure, h]
    omega
  · simp [getSheetStructure, h]
    omega

/-- Witness for C7: a five-millisecond-old entry is returned. -/
theorem cache_freshness_boundary_witness :
    getSheetStructure (some s0) 0 5 = some s0 :=
  (cache_freshness_boundary s0 0 5).1.mpr (by decide)

/-- C9 (counterexample): a single task whose assignee text contains
"complete" but whose name does not is counted as completed, yet still
appears in `upcoming`, so `upcoming` is not the list of not-completed
tasks. -/
theorem tasks_upcoming_counterexample :
    (parseFlexibleEventData d9 s9).tasks.completed = 1 ∧
    (parseFlexibleEventData d9 s9).tasks.total = 1 ∧
    (parseFlexibleEventData d9 s9).tasks.upcoming =
      [{ name := "Book venue", dueDate := "2025-01-01",
         assignedTo := "completed by Ann", priority := TaskPriority.high }] :=
  ⟨rfl, rfl, rfl⟩

/-- C9 (amended): `tasks.completed` counts tasks whose name or assignee
contains "complete"; `tasks.upcoming` is the tasks whose name alone does
not contain "complete", in original order, capped to the first 5 and
always a sublist of the parsed tasks. -/
theorem tasks_view_characterization : ∀ (d : String → List (List String))
    (s : SheetStructure),
    (parseFlexibleEventData d s).tasks.completed =
      ((collectState d s).tasks.filter taskIsComplete).length ∧
    (parseFlexibleEventData d s).tasks.total = (collectState d s).tasks.length ∧
    (parseFlexibleEventData d s).tasks.upcoming =
      ((collectState d s).tasks.filter (fun t => !taskNameComplete t)).take 5 ∧
    (parseFlexibleEventData d s).tasks.upcoming.length ≤ 5 ∧
    List.Sublist (parseFlexibleEventData d s).tasks.upcoming
      (collectState d s).tasks := by
  intro d s
  refine ⟨rfl, rfl, rfl, ?_, ?_⟩
  · show (((collectState d s).tasks.filter
      (fun t => !taskNameComplete t)).take 5).length ≤ 5
    simp [List.length_take]
  · show List.Sublist (((collectState d s).tasks.filter
      (fun t => !taskNameComplete t)).take 5) (collectState d s).tasks
    exact (List.take_sublist _ _).trans (List.filter_sublist _)

/-- A pattern matching at the start of `l` still matches after appending. -/
theorem listPrefixOf_append : ∀ (pat l l2 : List Char),
    listPrefixOf pat l = true → listPrefixOf pat (l ++ l2) = true := by
  intro pat
  induction pat with
  | nil => intro l l2 _; simp [listPrefixOf]
  | cons a as ih =>
      intro l l2 h
      cases l with
      | nil => simp [listPrefixOf] at h
      | cons b bs =>
          simp [listPrefixOf] at h ⊢
          exact ⟨h.1, ih bs l2 h.2⟩

/-- The empty pattern occurs in every list. -/
theorem listSubstr_nil_pat : ∀ l : List Char, listSubstr [] l = true := by
  intro l
  cases l <;> simp [listSubstr, listPrefixOf]

/-- A substring of `l1` is a substring of `l1 ++ l2`. -/
theorem listSubstr_append_right : ∀ (pat l1 l2 : List Char),
    listSubstr pat l1 = true → listSubstr pat (l1 ++ l2) = true := by
  intro pat l1
  induction l1 with
  | nil =>
      intro l2 h
      cases pat with
      | nil => simpa using listSubstr_nil_pat l2
      | cons a as => simp [listSubstr, listPrefixOf] at h
  | cons b bs ih =>
      intro l2 h
      simp [listSubstr] at h ⊢
      rcases h with h | h
      · exact Or.inl (listPrefixOf_append pat (b :: bs) l2 h)
      · exact Or.inr (ih l2 h)

/-- A substring of `l2` is a substring of `l1 ++ l2`. -/
theorem listSubstr_append_left : ∀ (pat l1 l2 : List Char),
    listSubstr pat l2 = true → listSubstr pat (l1 ++ l2) = true := by
  intro pat l1 l2 h
  induction l1 with
  | nil => simpa using h
  | cons b bs ih =>
      simp [listSubstr]
      exact Or.inr ih

/-- Trimming only removes characters at the two ends. -/
theorem jsTrim_data_decomp (s : String) :
    s.data = s.data.takeWhile isWsChar ++ (jsTrim s).data ++
      ((s.data.dropWhile isWsChar).reverse.takeWhile isWsChar).reverse := by
  have h1 : s.data.takeWhile isWsChar ++ s.data.dropWhile isWsChar = s.data :=
    List.takeWhile_append_dropWhile isWsChar s.data
  have h2 : (s.data.dropWhile isWsChar).reverse.takeWhile isWsChar ++
      (s.data.dropWhile isWsChar).reverse.dropWhile isWsChar =
      (s.data.dropWhile isWsChar).reverse :=
    List.takeWhile_append_dropWhile isWsChar (s.data.dropWhile isWsChar).reverse
  have h3 : s.data.dropWhile isWsChar =
      ((s.data.dropWhile isWsChar).reverse.dropWhile isWsChar).reverse ++
        ((s.data.dropWhile isWsChar).reverse.takeWhile isWsChar).reverse := by
    have h4 := congrArg List.reverse h2
    rw [List.reverse_append] at h4
    simpa using h4.symm
  have h5 : (jsTrim s).data =
      ((s.data.dropWhile isWsChar).reverse.dropWhile isWsChar).reverse := rfl
  rw [h5, List.append_assoc, ← h3, h1]

/-- A trimmed string containing "ignore" (case-insensitively) contained it
before trimming. -/
theorem containsIgnore_jsTrim (s : String)
    (h : containsIgnore (jsTrim s) = true) : containsIgnore s = true := by
  unfold containsIgnore strContains toLowerCase at h ⊢
  have hd := jsTrim_data_decomp s
  show listSubstr (String.data "ignore") (s.data.map Char.toLower) = true
  rw [hd, List.map_append, List.map_append, List.append_assoc]
  apply listSubstr_append_left
  apply listSubstr_append_right
  exact h

/-- Inserting a tab with an ignore-free name preserves the invariant. -/
theorem tabsNoIgnore_insert (tabs : List (String × SheetTab)) (name : String)
    (hr : Int) (hn : containsIgnore name = false) (h : TabsNoIgnore tabs) :
    TabsNoIgnore (tabsInsert tabs name hr) := by
  unfold tabsInsert
  split
  · exact h
  · intro p hp
    rcases List.mem_append.mp hp with hp | hp
    · exact h p hp
    · simp at hp
      subst hp
      refine ⟨hn, ?_⟩
      intro c hc
      simp at hc

/-- Appending an ignore-free column preserves the invariant. -/
theorem tabsNoIgnore_addColumn (tabs : List (String × SheetTab))
    (name : String) (col : SheetColumn)
    (hc : containsIgnore col.name = false) (h : TabsNoIgnore tabs) :
    TabsNoIgnore (tabsAddColumn tabs name col) := by
  intro p hp
  unfold tabsAddColumn at hp
  rcases List.mem_map.mp hp with ⟨q, hq, hpe⟩
  by_cases hqn : q.1 == name
  · simp [hqn] at hpe
    subst hpe
    refine ⟨(h q hq).1, ?_⟩
    intro c hcmem
    rcases List.mem_append.mp hcmem with h1 | h1
    · exact (h q hq).2 c h1
    · simp at h1
      subst h1
      exact hc
  · simp [hqn] at hpe
    subst hpe
    exact h q hq

/-- Each README data row preserves the invariant. -/
theorem tabsNoIgnore_processRow (tabs : List (String × SheetTab))
    (row : List String) (h : TabsNoIgnore tabs) :
    TabsNoIgnore (processReadmeRow tabs row) := by
  unfold processReadmeRow
  split
  · exact h
  · dsimp only
    split
    · exact h
    · split
      · exact h
      · rename_i hign
        have htab : containsIgnore (jsTrim (row.getD 0 "")) = false := by
          cases hjt : containsIgnore (jsTrim (row.getD 0 "")) with
          | false => rfl
          | true => exact absurd (containsIgnore_jsTrim _ hjt) (by simpa using hign)
        split
        · rename_i hcol
          have hc2 : containsIgnore (jsTrim (row.getD 2 "")) = false := by
            have := (Bool.and_eq_true _ _).mp hcol
            simpa using this.2
          exact tabsNoIgnore_addColumn _ _ _ hc2
            (tabsNoIgnore_insert _ _ _ htab h)
        · exact tabsNoIgnore_insert _ _ _ htab h

/-- Folding README data rows from an invariant-satisfying accumulator
preserves the invariant. -/
theorem tabsNoIgnore_foldl (rows : List (List String)) :
    ∀ tabs, TabsNoIgnore tabs →
      TabsNoIgnore (rows.foldl processReadmeRow tabs) := by
  induction rows with
  | nil => intro tabs h; exact h
  | cons r rest ih =>
      intro tabs h
      exact ih _ (tabsNoIgnore_processRow tabs r h)

/-- C6 (confirmed): every structure produced by `parseReadmeStructure`
contains no tab whose name has the case-insensitive substring "ignore"
and no column whose name has it: ignore-rows contribute no tab and
ignore-columns are absent from their tab. -/
theorem readme_ignore_filtering : ∀ (rows : List (List String))
    (s : SheetStructure),
    parseReadmeStructure rows = some s → TabsNoIgnore s.tabs := by
  intro rows s h
  unfold parseReadmeStructure at h
  rcases hidx : rows.findIdx? isHeaderRowCells with _ | i
  · rw [hidx] at h
    cases h
  · rw [hidx] at h
    cases h
    apply tabsNoIgnore_foldl
    intro p hp
    simp at hp

/-- Witness for C6: the ignore filtering evaluated on a concrete grid with
an ignore-row and an ignore-column. -/
theorem readme_ignore_filtering_witness :
    parseReadmeStructure g6 = some s6val ∧ TabsNoIgnore s6val.tabs :=
  ⟨by decide, readme_ignore_filtering g6 s6val (by decide)⟩

/-- C8 (counterexample): a grid whose only surviving column is
ignore-filtered still produces a tab with an empty column list, and
validation accepts the structure instead of reporting it malformed. -/
theorem readme_accepts_empty_tab :
    parseReadmeStructure g8 =
      some { tabs := [("Budget", { headerRow := 1, columns := [] })] } ∧
    readmeStructureAccepted g8 = true :=
  ⟨by decide, rfl⟩

/-- C8 (amended): validation accepts a parsed structure exactly when at
least one tab was produced; the columns of a tab may be empty. -/
theorem readme_acceptance_iff : ∀ rows : List (List String),
    readmeStructureAccepted rows = true ↔
      ∃ s, parseReadmeStructure rows = some s ∧ s.tabs ≠ [] := by
  intro rows
  unfold readmeStructureAccepted
  rcases h : parseReadmeStructure rows with _ | s
  · simp
  · simp [h]

/-- Witness for C8: acceptance evaluated on a concrete grid with a
nonempty structure. -/
theorem readme_acceptance_iff_witness :
    readmeStructureAccepted g6 = true :=
  (readme_acceptance_iff g6).mpr ⟨s6val, by decide, by decide⟩

/-- C2 (amended): `updateEventData` issues exactly one write per populated
section (overview when a truthy name or date is present, then budget,
vendors, timeline), and the call succeeds exactly when every issued
section write succeeds; a single failing section write fails the whole
call and there is no partial-success side channel. -/
theorem updateEventData_all_or_error : ∀ (u : EventUpdates)
    (writeOk : UpdateSection → Bool),
    (updateEventData u writeOk = Except.ok () ↔
      ∀ s ∈ sectionsOf u, writeOk s = true) ∧
    (UpdateSection.overview ∈ sectionsOf u ↔
      (jsTruthyStr u.eventName || jsTruthyStr u.eventDate) = true) ∧
    (UpdateSection.budget ∈ sectionsOf u ↔ u.budget = true) ∧
    (UpdateSection.vendors ∈ sectionsOf u ↔ u.vendors = true) ∧
    (UpdateSection.timeline ∈ sectionsOf u ↔ u.timeline = true) ∧
    (sectionsOf u).Nodup := by
  intro u writeOk
  refine ⟨?_, ?_⟩
  · rcases h : (sectionsOf u).find? (fun s => !writeOk s) with _ | s
    · simp [updateEventData, h]
      intro t ht
      have h2 := List.find?_eq_none.mp h t ht
      simpa using h2
    · have hmem := List.mem_of_find?_eq_some h
      have hp := List.find?_some h
      simp at hp
      simp [updateEventData, h]
      exact ⟨s, hmem, hp⟩
  · rcases u with ⟨en, ed, b, ve, ti⟩
    by_cases h1 : (jsTruthyStr en || jsTruthyStr ed) = true <;>
      cases b <;> cases ve <;> cases ti <;>
      simp [sectionsOf, h1]

/-- Witness for C2: with every section populated and every write
succeeding, the call succeeds. -/
theorem updateEventData_all_or_error_witness :
    updateEventData u1 wAll = Except.ok () :=
  (updateEventData_all_or_error u1 wAll).1.mpr (by decide)

/-- Looking up the key just written returns the written record. -/
theorem lookupRL_insertRL_self : ∀ (st : List (String × SenderData))
    (sid : String) (d : SenderData),
    lookupRL (insertRL st sid d) sid = some d := by
  intro st sid d
  induction st with
  | nil => simp [insertRL, lookupRL, List.find?]
  | cons p rest ih =>
      by_cases h : p.1 == sid
      · simp [insertRL, h, lookupRL, List.find?]
      · simp [insertRL, h, lookupRL, List.find?] at ih ⊢
        exact ih

/-- Writing one key leaves the lookup of every other key unchanged. -/
theorem lookupRL_insertRL_ne : ∀ (st : List (String × SenderData))
    (sid : String) (d : SenderData) (other : String), other ≠ sid →
    lookupRL (insertRL st sid d) other = lookupRL st other := by
  intro st sid d other hne
  have hbeq : (sid == other) = false := by
    simp
    intro he
    exact hne he.symm
  induction st with
  | nil => simp [insertRL, lookupRL, List.find?, hbeq]
  | cons p rest ih =>
      by_cases h : p.1 == sid
      · have hpo : (p.1 == other) = false := by
          have hps : p.1 = sid := by simpa using h
          simp [hps]
          intro he
          exact hne he.symm
        simp [insertRL, h, lookupRL, List.find?, hbeq, hpo]
      · by_cases hpo : p.1 == other
        · simp [insertRL, h, lookupRL, List.find?, hpo]
        · simp [insertRL, h, lookupRL, List.find?, hpo] at ih ⊢
          exact ih

/-- Behavior of `checkRateLimit` on a sender found inside its window. -/
theorem checkRateLimit_found (st : List (String × SenderData)) (sid : String)
    (now : Int) (d : SenderData) (hd : lookupRL st sid = some d)
    (hng : ¬ now > d.resetTime) :
    checkRateLimit st sid now =
      (!decide (d.count + 1 > RATE_LIMIT_MAX_REQUESTS),
        insertRL st sid { count := d.count + 1, resetTime := d.resetTime }) := by
  unfold checkRateLimit
  rw [hd]
  simp [hng]

/-- Behavior of `checkRateLimit` on a sender whose window has elapsed. -/
theorem checkRateLimit_reset (st : List (String × SenderData)) (sid : String)
    (now : Int) (d : SenderData) (hd : lookupRL st sid = some d)
    (hg : now > d.resetTime) :
    checkRateLimit st sid now =
      (true, insertRL st sid { count := 1, resetTime := now + RATE_LIMIT_WINDOW }) := by
  unfold checkRateLimit
  rw [hd]
  simp [hg, RATE_LIMIT_MAX_REQUESTS]

/-- Behavior of `checkRateLimit` on an unknown sender. -/
theorem checkRateLimit_absent (st : List (String × SenderData)) (sid : String)
    (now : Int) (hd : lookupRL st sid = none) :
    checkRateLimit st sid now =
      (true, insertRL st sid { count := 1, resetTime := now + RATE_LIMIT_WINDOW }) := by
  unfold checkRateLimit
  rw [hd]
  simp [RATE_LIMIT_MAX_REQUESTS]

/-- The gate in terms of the rate-limit check it performs. -/
theorem handleMessageGate_of_check (st : List (String × SenderData))
    (sid : String) (now : Int) (b : Bool) (store2 : List (String × SenderData))
    (h : checkRateLimit st sid now = (b, store2)) :
    handleMessageGate st sid now =
      if b then
        { response := HandlerResponse.handled, executed := true, store := store2 }
      else
        { response := HandlerResponse.errorResp
            (getUserFriendlyError "Rate limit exceeded. Please slow down your requests.")
          executed := false, store := store2 } := by
  unfold handleMessageGate
  rw [h]

/-- C10 (confirmed): the handler counts the requests of each sender within
its current 60-second window (incrementing even rejected requests); a
request is executed exactly when the incremented count stays at or below
60, otherwise the operation is not routed and the caller gets the
rate-limit error envelope; a request after the window elapsed resets the
counter to 1 and is executed; other senders are unaffected. -/
theorem rate_limit_window : ∀ (st : List (String × SenderData))
    (sid : String) (now : Int),
    (∀ d, lookupRL st sid = some d → now ≤ d.resetTime →
      (((handleMessageGate st sid now).executed = true) ↔
        d.count + 1 ≤ RATE_LIMIT_MAX_REQUESTS) ∧
      lookupRL (handleMessageGate st sid now).store sid =
        some { count := d.count + 1, resetTime := d.resetTime } ∧
      (RATE_LIMIT_MAX_REQUESTS < d.count + 1 →
        (handleMessageGate st sid now).executed = false ∧
        (handleMessageGate st sid now).response = HandlerResponse.errorResp
          "Too many requests. Please wait a moment before trying again.")) ∧
    (∀ d, lookupRL st sid = some d → d.resetTime < now →
      (handleMessageGate st sid now).executed = true ∧
      lookupRL (handleMessageGate st sid now).store sid =
        some { count := 1, resetTime := now + RATE_LIMIT_WINDOW }) ∧
    (lookupRL st sid = none →
      (handleMessageGate st sid now).executed = true ∧
      lookupRL (handleMessageGate st sid now).store sid =
        some { count := 1, resetTime := now + RATE_LIMIT_WINDOW }) ∧
    (∀ other, other ≠ sid →
      lookupRL (handleMessageGate st sid now).store other = lookupRL st other) := by
  intro st sid now
  have hmsg : getUserFriendlyError
      "Rate limit exceeded. Please slow down your requests." =
      "Too many requests. Please wait a moment before trying again." := rfl
  refine ⟨?_, ?_, ?_, ?_⟩
  · intro d hd hle
    have hng : ¬ now > d.resetTime := not_lt.mpr hle
    have hgate := handleMessageGate_of_check st sid now _ _
      (checkRateLimit_found st sid now d hd hng)
    by_cases hc : d.count + 1 ≤ RATE_LIMIT_MAX_REQUESTS
    · have hb : (!decide (d.count + 1 > RATE_LIMIT_MAX_REQUESTS)) = true := by
        simp [Nat.not_lt.mpr hc]
      rw [hb] at hgate
      simp only [if_true] at hgate
      refine ⟨?_, ?_, ?_⟩
      · simp [hgate, hc]
      · simp [hgate, lookupRL_insertRL_self]
      · intro hgt
        exact absurd hgt (Nat.not_lt.mpr hc)
    · have hlt : RATE_LIMIT_MAX_REQUESTS < d.count + 1 := Nat.not_le.mp hc
      have hb : (!decide (d.count + 1 > RATE_LIMIT_MAX_REQUESTS)) = false := by
        simp [hlt]
      rw [hb] at hgate
      simp only [Bool.false_eq_true, if_false] at hgate
      refine ⟨?_, ?_, ?_⟩
      · simp [hgate, hc]
      · simp [hgate, lookupRL_insertRL_self]
      · intro _
        exact ⟨by simp [hgate], by simp [hgate, hmsg]⟩
  · intro d hd hgt
    have hgate := handleMessageGate_of_check st sid now _ _
      (checkRateLimit_reset st sid now d hd hgt)
    simp only [if_true] at hgate
    exact ⟨by simp [hgate], by simp [hgate, lookupRL_insertRL_self]⟩
  · intro hd
    have hgate := handleMessageGate_of_check st sid now _ _
      (checkRateLimit_absent st sid now hd)
    simp only [if_true] at hgate
    exact ⟨by simp [hgate], by simp [hgate, lookupRL_insertRL_self]⟩
  · intro other hne
    rcases hfound : lookupRL st sid with _ | d
    · have hgate := handleMessageGate_of_check st sid now _ _
        (checkRateLimit_absent st sid now hfound)
      simp only [if_true] at hgate
      simp [hgate, lookupRL_insertRL_ne _ _ _ _ hne]
    · by_cases hg : now > d.resetTime
      · have hgate := handleMessageGate_of_check st sid now _ _
          (checkRateLimit_reset st sid now d hfound hg)
        simp only [if_true] at hgate
        simp [hgate, lookupRL_insertRL_ne _ _ _ _ hne]
      · have hgate := handleMessageGate_of_check st sid now _ _
          (checkRateLimit_found st sid now d hfound hg)
        rw [hgate]
        split <;> simp [lookupRL_insertRL_ne _ _ _ _ hne]

/-- Witness for C10: the 61st request of a sender inside one window is
rejected with the rate-limit error envelope and not executed. -/
theorem rate_limit_window_witness :
    (handleMessageGate store0 "7" 50).executed = false ∧
    (handleMessageGate store0 "7" 50).response = HandlerResponse.errorResp
      "Too many requests. Please wait a moment before trying again." := by
  have h := (rate_limit_window store0 "7" 50).1
    { count := 60, resetTime := 100 } (by rfl) (by decide)
  exact (h.2.2 (by decide))

end EventConnect
